import Mathlib

/-!
Verification development for the vdpau GLX hardware-decode interop module
(video/out/opengl/hwdec_vdpau.c).

The module is embedded shallowly: the per-session struct priv becomes a Lean
structure, each entry point (create, reinit, map_frame, unmap,
mark_vdpau_objects_uninitialized, destroy_objects, destroy) becomes a pure
function from the session state and an environment record of external-call
results to a new state, a result code and a list of emitted GPU/decode-API
calls.  External collaborators (the device context factory, the preemption
query, the surface allocator, the fbotex utility) are modelled by
environment fields holding the values those calls would return.  A result of
none / undef marks executions the C code would crash or assert on (null
context dereference, assertion failure), so such executions are
distinguished from ordinary error returns.
-/

/-- Sentinel for an absent decode-API output surface, VDP_INVALID_HANDLE,
which is the all-ones 32-bit value. -/
def VDP_INVALID_HANDLE : Nat := 4294967295

/-- GL texture target enum GL_TEXTURE_2D. -/
def GL_TEXTURE_2D : Nat := 3553

/-- GL texture target enum GL_TEXTURE_RECTANGLE. -/
def GL_TEXTURE_RECTANGLE : Nat := 34037

/-- GL internal format enum GL_R8. -/
def GL_R8 : Nat := 33321

/-- GL internal format enum GL_RG8. -/
def GL_RG8 : Nat := 33323

/-- Abstract code for the hardware decode image format IMGFMT_VDPAU.
Only its identity matters to this module. -/
def IMGFMT_VDPAU : Nat := 2001

/-- Abstract code for the planar output image format IMGFMT_NV12.
Only its identity matters to this module. -/
def IMGFMT_NV12 : Nat := 1001

/-- Decode-API status code VDP_STATUS_OK. -/
def VDP_STATUS_OK : Nat := 0

/-- The negotiated frame parameters, struct mp_image_params restricted to the
fields this module reads or writes. -/
structure mp_image_params where
  imgfmt : Nat
  w : Nat
  h : Nat
deriving DecidableEq

/-- One intermediate render target, struct fbotex restricted to the fields
this module uses: framebuffer handle, color texture handle, size and
internal format. -/
structure fbotex where
  fbo : Nat
  texture : Nat
  rw : Nat
  rh : Nat
  iformat : Nat
deriving DecidableEq

/-- A zeroed fbotex, as left by talloc_zero. -/
def fbotex0 : fbotex := { fbo := 0, texture := 0, rw := 0, rh := 0, iformat := 0 }

/-- The per-session state, struct priv.  The device context pointer is an
Option so that a null context (failed creation) is representable; handle
fields are plain naturals with 0 respectively VDP_INVALID_HANDLE as the
absent sentinels, exactly as in the C struct. -/
structure priv where
  ctx : Option Nat
  preemption_counter : Nat
  image_params : mp_image_params
  gl_textures : List Nat
  vdpgl_initialized : Bool
  vdpgl_surface : Nat
  vdp_surface : Nat
  vdpgl_video_surface : Nat
  mixer : Option Nat
  mapped : Bool
  vao : Option Nat
  sc : Option Nat
  fbos : fbotex × fbotex
  target : Nat
deriving DecidableEq

/-- The zero-initialized session state produced by talloc_zero in create. -/
def priv0 : priv :=
  { ctx := none, preemption_counter := 0, image_params := { imgfmt := 0, w := 0, h := 0 },
    gl_textures := [0, 0, 0, 0], vdpgl_initialized := false, vdpgl_surface := 0,
    vdp_surface := 0, vdpgl_video_surface := 0, mixer := none, mapped := false,
    vao := none, sc := none, fbos := (fbotex0, fbotex0), target := 0 }

/-- GPU and decode-API calls the module can emit, recorded as a trace. -/
inductive VCall where
  | vdpauUnmapSurfaces (h : Nat)
  | vdpauUnregisterSurface (h : Nat)
  | deleteTextures (texs : List Nat)
  | outputSurfaceDestroy (dev h : Nat)
  | vdpauFini
  | vdpauInit (dev : Nat)
  | outputSurfaceCreate (w h : Nat)
  | genTextures
  | videoSurfaceGetParameters (surf : Nat)
  | registerVideoSurface (surf tgt numTex : Nat) (texs : List Nat)
  | surfaceAccess (h : Nat)
  | vdpauMapSurfaces (h : Nat)
  | fbotexChange (plane w h fmt : Nat)
  | uniformSampler (name : String) (unit : Nat)
  | bindTexture (unit tgt tex : Nat)
  | drawPass (plane : Nat)
  | mixerDestroy
  | devicesRemove
  | vdpauDestroy
deriving DecidableEq

/-- The unmap entry point (hwdec_vdpau.c lines 63-77).  Only under the
mapped flag, and only if a video-surface binding exists, are the GPU unmap
and unregister calls issued and the binding cleared; the mapped flag is
cleared unconditionally. -/
def unmap (p : priv) : priv × List VCall :=
  if p.mapped then
    if p.vdpgl_video_surface ≠ 0 then
      ({ p with vdpgl_video_surface := 0, mapped := false },
       [VCall.vdpauUnmapSurfaces p.vdpgl_video_surface,
        VCall.vdpauUnregisterSurface p.vdpgl_video_surface])
    else
      ({ p with mapped := false }, [])
  else
    ({ p with mapped := false }, [])

/-- mark_vdpau_objects_uninitialized (lines 79-85): after preemption the
output surface handle is replaced by the invalid sentinel and the mapped
flag cleared, without any GPU calls. -/
def mark_vdpau_objects_uninitialized (p : priv) : priv :=
  { p with vdp_surface := VDP_INVALID_HANDLE, mapped := false }

/-- destroy_objects (lines 87-117).  Returns none when the C code would
dereference a null device context, which happens exactly when the output
surface field does not hold the invalid sentinel while the context is null
(the surface-destroy call goes through the context's function table). -/
def destroy_objects (p : priv) : Option (priv × List VCall) :=
  let u := unmap p
  let p1 := u.1
  let tr2 := u.2 ++ (if p1.vdpgl_surface ≠ 0 then [VCall.vdpauUnregisterSurface p1.vdpgl_surface] else [])
  let p2 : priv := { p1 with vdpgl_surface := 0 }
  let tr3 := tr2 ++ [VCall.deleteTextures p2.gl_textures]
  let p3 : priv := { p2 with gl_textures := [0, 0, 0, 0] }
  if p3.vdp_surface ≠ VDP_INVALID_HANDLE then
    match p3.ctx with
    | none => none
    | some dev =>
      let tr4 := tr3 ++ [VCall.outputSurfaceDestroy dev p3.vdp_surface]
      let p4 : priv := { p3 with vdp_surface := VDP_INVALID_HANDLE }
      some ({ p4 with vdpgl_initialized := false },
            tr4 ++ (if p4.vdpgl_initialized then [VCall.vdpauFini] else []))
  else
    let p4 : priv := { p3 with vdp_surface := VDP_INVALID_HANDLE }
    some ({ p4 with vdpgl_initialized := false },
          tr3 ++ (if p4.vdpgl_initialized then [VCall.vdpauFini] else []))

/-- The destroy entry point (lines 119-128).  The argument is the hw->priv
pointer: none models a session whose priv was never allocated.  A none
result marks a null dereference. -/
def destroy (s : Option priv) : Option (List VCall) :=
  match s with
  | none => none
  | some p =>
    match destroy_objects p with
    | none => none
    | some (q, tr) =>
      some (tr ++ [VCall.mixerDestroy]
               ++ (if q.ctx.isSome then [VCall.devicesRemove] else [])
               ++ [VCall.vdpauDestroy])

/-- Results of the external calls made by create. -/
structure CreateEnv where
  display : Bool
  cap_vdpau : Bool
  ctx : Option Nat
  preemption : Int
  mixer : Nat
  probing : Bool
  emulated : Bool
  sc : Nat
  vao : Nat
deriving DecidableEq

/-- The create entry point (lines 130-158).  Returns the status code and the
session state left behind at each exit (none when priv was never allocated,
or when create itself destroyed the session on the probing-emulation path).
The outer none would mark a crash inside create; it never occurs. -/
def create (e : CreateEnv) : Option (Int × Option priv) :=
  if e.display = false then some (-1, none)
  else if e.cap_vdpau = false then some (-1, none)
  else
    match e.ctx with
    | none => some (-1, some priv0)
    | some dev =>
      let p1 : priv := { priv0 with ctx := some dev }
      if e.preemption < 1 then some (-1, some p1)
      else
        let p2 : priv := { p1 with vdp_surface := VDP_INVALID_HANDLE, mixer := some e.mixer }
        if e.probing && e.emulated then
          (destroy (some p2)).map (fun _ => (-1, none))
        else
          some (0, some { p2 with sc := some e.sc, vao := some e.vao })

/-- Results of the external calls made by reinit. -/
structure ReinitEnv where
  preemption : Int
  surf_create_st : Nat
  surf_handle : Nat
  textures : List Nat
deriving DecidableEq

/-- Outcome of reinit: ok and fail carry the session state, the (possibly
mutated) caller-visible frame parameters, and the call trace; undef marks
an assertion failure or null dereference. -/
inductive RRes where
  | ok (p : priv) (params : mp_image_params) (tr : List VCall)
  | fail (p : priv) (params : mp_image_params) (tr : List VCall)
  | undef
deriving DecidableEq

/-- The reinit entry point (lines 160-212): tear down all objects, assert
the input format is the driver format, store the frame parameters, check
preemption, initialize the GL interop, allocate the output surface, set the
rectangle target, generate the 4 textures, and finally mutate the caller's
imgfmt field to IMGFMT_NV12. -/
def reinit (p : priv) (params : mp_image_params) (e : ReinitEnv) : RRes :=
  match destroy_objects p with
  | none => RRes.undef
  | some (p1, tr1) =>
    if params.imgfmt ≠ IMGFMT_VDPAU then RRes.undef
    else
      let p2 : priv := { p1 with image_params := params }
      match p2.ctx with
      | none => RRes.undef
      | some dev =>
        if e.preemption < 0 then RRes.fail p2 params tr1
        else
          let p3 : priv := { p2 with vdpgl_initialized := true }
          let tr2 := tr1 ++ [VCall.vdpauInit dev, VCall.outputSurfaceCreate params.w params.h]
          if e.surf_create_st ≠ VDP_STATUS_OK then RRes.fail p3 params tr2
          else
            let p4 : priv := { p3 with
                               vdp_surface := e.surf_handle,
                               target := GL_TEXTURE_RECTANGLE, gl_textures := e.textures }
            RRes.ok p4 { params with imgfmt := IMGFMT_NV12 } (tr2 ++ [VCall.genTextures])

/-- Results of the external calls made by map_frame. -/
structure MapEnv where
  preemption : Int
  reinitEnv : ReinitEnv
  surface : Nat
  query_st : Nat
  s_chroma : Nat
  s_w : Nat
  s_h : Nat
  register_result : Nat
  fb0_fbo : Nat
  fb0_tex : Nat
  fb1_fbo : Nat
  fb1_tex : Nat
deriving DecidableEq

/-- One returned output plane, struct gl_hwdec_plane. -/
structure gl_hwdec_plane where
  gl_texture : Nat
  gl_target : Nat
  tex_w : Nat
  tex_h : Nat
deriving DecidableEq

/-- The returned frame, struct gl_hwdec_frame with its two used planes. -/
structure gl_hwdec_frame where
  interlaced : Bool
  plane0 : gl_hwdec_plane
  plane1 : gl_hwdec_plane
deriving DecidableEq

/-- Outcome of map_frame: ok carries the state, the output frame and the
trace; fail carries the state and trace; undef marks a null dereference. -/
inductive MRes where
  | ok (p : priv) (f : gl_hwdec_frame) (tr : List VCall)
  | fail (p : priv) (tr : List VCall)
  | undef
deriving DecidableEq

/-- The conversion-pass binding sequence for one output plane (lines
267-271): sampler t0 on texture unit 0 bound to input texture 2*plane,
sampler t1 on unit 1 bound to input texture 2*plane+1, then the draw. -/
def conv_pass_calls (p : priv) (plane : Nat) : List VCall :=
  [VCall.uniformSampler "t0" 0,
   VCall.bindTexture 0 p.target (p.gl_textures.getD (plane * 2) 0),
   VCall.uniformSampler "t1" 1,
   VCall.bindTexture 1 p.target (p.gl_textures.getD (plane * 2 + 1) 0),
   VCall.drawPass plane]

/-- The output frame built at lines 301-312: both planes target
GL_TEXTURE_2D, plane dimensions are the surface dimensions shifted right by
0 respectively 1, the frame is not interlaced. -/
def okFrame (e : MapEnv) : gl_hwdec_frame :=
  { interlaced := false,
    plane0 := { gl_texture := e.fb0_tex, gl_target := GL_TEXTURE_2D,
                tex_w := e.s_w >>> 0, tex_h := e.s_h >>> 0 },
    plane1 := { gl_texture := e.fb1_tex, gl_target := GL_TEXTURE_2D,
                tex_w := e.s_w >>> 1, tex_h := e.s_h >>> 1 } }

/-- The part of map_frame after the preemption handling (lines 240-313):
query the surface parameters, register the video surface against the 4
session textures, set read-only access, map it, run the two conversion
passes into the per-plane render targets, set the mapped flag and build the
output frame. -/
def map_frame_cont (p0 : priv) (tr0 : List VCall) (e : MapEnv) : MRes :=
  let tr1 := tr0 ++ [VCall.videoSurfaceGetParameters e.surface]
  if e.query_st ≠ VDP_STATUS_OK then MRes.fail p0 tr1
  else
    let p1 : priv := { p0 with vdpgl_video_surface := e.register_result }
    let tr2 := tr1 ++ [VCall.registerVideoSurface e.surface p0.target 4 p0.gl_textures]
    if e.register_result = 0 then MRes.fail p1 tr2
    else
      let tr3 := tr2 ++ [VCall.surfaceAccess e.register_result,
                         VCall.vdpauMapSurfaces e.register_result]
      let fb0 : fbotex := { fbo := e.fb0_fbo, texture := e.fb0_tex,
                            rw := e.s_w >>> 0, rh := e.s_h >>> 0, iformat := GL_R8 }
      let fb1 : fbotex := { fbo := e.fb1_fbo, texture := e.fb1_tex,
                            rw := e.s_w >>> 1, rh := e.s_h >>> 1, iformat := GL_RG8 }
      let tr4 := tr3 ++ (VCall.fbotexChange 0 (e.s_w >>> 0) (e.s_h >>> 0) GL_R8 :: conv_pass_calls p1 0)
                     ++ (VCall.fbotexChange 1 (e.s_w >>> 1) (e.s_h >>> 1) GL_RG8 :: conv_pass_calls p1 1)
      MRes.ok { p1 with fbos := (fb0, fb1), mapped := true } (okFrame e) tr4

/-- The map_frame entry point (lines 214-314).  The preemption query result
below 1 marks the interop objects uninitialized; a negative result fails
immediately, result 0 runs reinit on the stored frame parameters first.
Since reinit is called on the address of the stored parameters, its
out-parameter mutation is written back into the session state. -/
def map_frame (p : priv) (e : MapEnv) : MRes :=
  match p.ctx with
  | none => MRes.undef
  | some _ =>
    if e.preemption < 1 then
      let pm := mark_vdpau_objects_uninitialized p
      if e.preemption < 0 then MRes.fail pm []
      else
        match reinit pm pm.image_params e.reinitEnv with
        | RRes.undef => MRes.undef
        | RRes.fail q pa tr => MRes.fail { q with image_params := pa } tr
        | RRes.ok q pa tr => map_frame_cont { q with image_params := pa } tr e
    else
      map_frame_cont p [] e

/-- Session state of a map_frame outcome, when one exists. -/
def mresState : MRes → Option priv
  | MRes.ok p _ _ => some p
  | MRes.fail p _ => some p
  | MRes.undef => none

/-- Output frame of a map_frame outcome, when successful. -/
def mresFrame : MRes → Option gl_hwdec_frame
  | MRes.ok _ f _ => some f
  | MRes.fail _ _ => none
  | MRes.undef => none

/-- Whether a map_frame outcome is a success. -/
def mresIsOk : MRes → Bool
  | MRes.ok _ _ _ => true
  | MRes.fail _ _ => false
  | MRes.undef => false

/-- Session state of a reinit outcome, when one exists. -/
def rresState : RRes → Option priv
  | RRes.ok p _ _ => some p
  | RRes.fail p _ _ => some p
  | RRes.undef => none

/-- Session state of a successful reinit outcome. -/
def rresOkState : RRes → Option priv
  | RRes.ok p _ _ => some p
  | RRes.fail _ _ _ => none
  | RRes.undef => none

/-- Caller-visible frame parameters left by a successful reinit. -/
def rresParams : RRes → Option mp_image_params
  | RRes.ok _ pa _ => some pa
  | RRes.fail _ _ _ => none
  | RRes.undef => none

/-- Whether a reinit outcome is a success. -/
def rresIsOk : RRes → Bool
  | RRes.ok _ _ _ => true
  | RRes.fail _ _ _ => false
  | RRes.undef => false

/-- The surface-registry invariant: a mapped session has a video-surface
binding. -/
def vdpau_inv (p : priv) : Prop := p.mapped = true → p.vdpgl_video_surface ≠ 0

instance (p : priv) : Decidable (vdpau_inv p) := by
  unfold vdpau_inv; infer_instance

/-- The GLSL fract function on rationals. -/
def fractGL (x : ℚ) : ℚ := x - ((Int.floor x : Int) : ℚ)

/-- The y component of gl_FragCoord at an output row: the pixel center, row
plus one half. -/
def glFragCoordY (row : Nat) : ℚ := (row : ℚ) + 1/2

/-- The selection made by the generated fragment shader (lines 283-284):
color is sampled from t0 when fract of gl_FragCoord.y / 2 is below one half,
from t1 otherwise.  Returns true when t0 is selected. -/
def shader_selects_t0 (y : ℚ) : Bool := decide (fractGL (y / 2) < 1/2)

/-- Frame parameters of a configured 1920 by 1080 session. -/
def goodParams : mp_image_params := { imgfmt := IMGFMT_VDPAU, w := 1920, h := 1080 }

/-- A benign reinit environment: no preemption, surface creation succeeds. -/
def goodReinitEnv : ReinitEnv :=
  { preemption := 1, surf_create_st := 0, surf_handle := 22, textures := [15, 16, 17, 18] }

/-- A configured, unmapped session as left by create plus a successful
reinit. -/
def goodPriv : priv :=
  { priv0 with
    ctx := some 1, image_params := goodParams, gl_textures := [11, 12, 13, 14],
    vdpgl_initialized := true, vdp_surface := 21, mixer := some 2, vao := some 3,
    sc := some 4, target := GL_TEXTURE_RECTANGLE }

/-- A benign map_frame environment: no preemption, parameter query and
registration succeed, surface is 1920 by 1080. -/
def goodMapEnv : MapEnv :=
  { preemption := 1, reinitEnv := goodReinitEnv, surface := 7, query_st := 0,
    s_chroma := 1, s_w := 1920, s_h := 1080, register_result := 31,
    fb0_fbo := 41, fb0_tex := 42, fb1_fbo := 43, fb1_tex := 44 }

/-- The session state after a successful map_frame of goodPriv under
goodMapEnv. -/
def mappedGoodPriv : priv :=
  { goodPriv with
    vdpgl_video_surface := 31,
    fbos := ({ fbo := 41, texture := 42, rw := 1920, rh := 1080, iformat := GL_R8 },
             { fbo := 43, texture := 44, rw := 960, rh := 540, iformat := GL_RG8 }),
    mapped := true }

/-- The frame returned by a successful map_frame under goodMapEnv. -/
def mappedFrame : gl_hwdec_frame :=
  { interlaced := false,
    plane0 := { gl_texture := 42, gl_target := GL_TEXTURE_2D, tex_w := 1920, tex_h := 1080 },
    plane1 := { gl_texture := 44, gl_target := GL_TEXTURE_2D, tex_w := 960, tex_h := 540 } }

/-- The session state after reinit of the marked goodPriv under
goodReinitEnv, as performed by map_frame on a recoverable preemption. -/
def reinitGoodPriv : priv :=
  { goodPriv with vdp_surface := 22, gl_textures := [15, 16, 17, 18] }

/-- A mapped session satisfying the registry invariant: binding handle 7. -/
def c5cexPriv : priv := { goodPriv with mapped := true, vdpgl_video_surface := 7 }

/-- An environment in which the GPU rejects the surface registration. -/
def c5cexEnv : MapEnv := { goodMapEnv with register_result := 0 }

/-- The session state map_frame leaves after the rejected registration. -/
def c5cexAfter : priv := { c5cexPriv with vdpgl_video_surface := 0 }

/-- A create environment failing at device-context creation: display and
interop capability present, but the context factory returns null. -/
def c7cexEnv : CreateEnv :=
  { display := true, cap_vdpau := true, ctx := none, preemption := 1, mixer := 2,
    probing := false, emulated := false, sc := 4, vao := 3 }

/-- A create environment in which every step succeeds. -/
def goodCreateEnv : CreateEnv :=
  { display := true, cap_vdpau := true, ctx := some 1, preemption := 1, mixer := 2,
    probing := false, emulated := false, sc := 4, vao := 3 }

/-- The session state left by a fully successful create under
goodCreateEnv. -/
def createdPriv : priv :=
  { priv0 with
    ctx := some 1, vdp_surface := VDP_INVALID_HANDLE, mixer := some 2,
    sc := some 4, vao := some 3 }

/-- The call trace of a successful map_frame of goodPriv under goodMapEnv. -/
def mappedTrace : List VCall :=
  [VCall.videoSurfaceGetParameters 7,
   VCall.registerVideoSurface 7 34037 4 [11, 12, 13, 14],
   VCall.surfaceAccess 31, VCall.vdpauMapSurfaces 31,
   VCall.fbotexChange 0 1920 1080 33321,
   VCall.uniformSampler "t0" 0, VCall.bindTexture 0 34037 11,
   VCall.uniformSampler "t1" 1, VCall.bindTexture 1 34037 12, VCall.drawPass 0,
   VCall.fbotexChange 1 960 540 33323,
   VCall.uniformSampler "t0" 0, VCall.bindTexture 0 34037 13,
   VCall.uniformSampler "t1" 1, VCall.bindTexture 1 34037 14, VCall.drawPass 1]

/-- The call trace of the reinit that map_frame runs on goodPriv after a
recoverable preemption (the marked session has no live output surface, so
no surface-destroy call appears). -/
def reinitMarkedTrace : List VCall :=
  [VCall.deleteTextures [11, 12, 13, 14], VCall.vdpauFini,
   VCall.vdpauInit 1, VCall.outputSurfaceCreate 1920 1080, VCall.genTextures]

/-- A session with a stale binding but no mapped flag: reachable after a
preemption marked the objects uninitialized. -/
def c6cexPriv : priv := { priv0 with vdpgl_video_surface := 5 }

/-- A mapped session with a binding, used to instantiate the unmap
theorems. -/
def c6wPriv : priv := { priv0 with mapped := true, vdpgl_video_surface := 5 }

lemma unmap_mapped_eq_false (p : priv) : (unmap p).1.mapped = false := by
  unfold unmap
  split
  · split <;> simp
  · simp

lemma unmap_of_not_mapped (p : priv) (h : p.mapped = false) : unmap p = (p, []) := by
  cases p
  simp only at h
  subst h
  simp [unmap]

/-- C4: calling unmap twice in a row is the same as calling it once: the
second call emits no GPU calls and returns the state unchanged. -/
theorem c4_unmap_idempotent (p : priv) :
    unmap (unmap p).1 = ((unmap p).1, ([] : List VCall)) :=
  unmap_of_not_mapped _ (unmap_mapped_eq_false p)

/-- C9: unmap modifies at most the vdpgl_video_surface and mapped fields;
every other session field is returned unchanged. -/
theorem c9_unmap_frame_effect (p : priv) :
    (unmap p).1.ctx = p.ctx ∧
    (unmap p).1.preemption_counter = p.preemption_counter ∧
    (unmap p).1.image_params = p.image_params ∧
    (unmap p).1.gl_textures = p.gl_textures ∧
    (unmap p).1.vdpgl_initialized = p.vdpgl_initialized ∧
    (unmap p).1.vdpgl_surface = p.vdpgl_surface ∧
    (unmap p).1.vdp_surface = p.vdp_surface ∧
    (unmap p).1.mixer = p.mixer ∧
    (unmap p).1.vao = p.vao ∧
    (unmap p).1.sc = p.sc ∧
    (unmap p).1.fbos = p.fbos ∧
    (unmap p).1.target = p.target := by
  unfold unmap
  split
  · split <;> simp
  · simp

/-- C6 counterexample: on a session that is not mapped but still holds a
video-surface binding handle (5), unmap issues no GPU calls and leaves the
binding registered, contradicting the claim that an existing binding is
unregistered even when the session is not currently mapped. -/
theorem c6_unmap_cex :
    c6cexPriv.mapped = false ∧ c6cexPriv.vdpgl_video_surface = 5 ∧
    (unmap c6cexPriv).2 = [] ∧ (unmap c6cexPriv).1.vdpgl_video_surface = 5 := by
  decide

/-- C6 amended: unmap clears the mapped flag in all cases; it issues the GPU
unmap and unregister calls, and clears the binding, exactly when the
session is currently mapped and a binding exists; when the session is not
mapped, or no binding exists, it emits no GPU calls and the binding field is
unchanged. -/
theorem c6_unmap_unregister (p : priv) :
    (unmap p).1.mapped = false ∧
    (p.mapped = true → p.vdpgl_video_surface ≠ 0 →
      (unmap p).2 = [VCall.vdpauUnmapSurfaces p.vdpgl_video_surface,
                     VCall.vdpauUnregisterSurface p.vdpgl_video_surface] ∧
      (unmap p).1.vdpgl_video_surface = 0) ∧
    (p.mapped = false ∨ p.vdpgl_video_surface = 0 →
      (unmap p).2 = [] ∧ (unmap p).1.vdpgl_video_surface = p.vdpgl_video_surface) := by
  refine ⟨unmap_mapped_eq_false p, ?_, ?_⟩
  · intro h1 h2
    simp [unmap, h1, h2]
  · intro h
    rcases h with h | h
    · simp [unmap, h]
    · simp [unmap, h]

/-- Instance of the amended C6 theorem on a mapped session holding binding
handle 5. -/
theorem c6_unmap_unregister_inst :
    (unmap c6wPriv).2 = [VCall.vdpauUnmapSurfaces 5, VCall.vdpauUnregisterSurface 5] ∧
    (unmap c6wPriv).1.vdpgl_video_surface = 0 :=
  (c6_unmap_unregister c6wPriv).2.1 (by decide) (by decide)

lemma vdpau_inv_of_not_mapped (q : priv) (h : q.mapped = false) : vdpau_inv q := by
  intro hm
  rw [h] at hm
  exact Bool.noConfusion hm

lemma destroy_objects_mapped_eq_false (p : priv) (q : priv) (tr : List VCall)
    (h : destroy_objects p = some (q, tr)) : q.mapped = false := by
  simp only [destroy_objects] at h
  split at h
  · split at h
    · exact Option.noConfusion h
    · injection h with h1
      injection h1 with h2 h3
      subst h2
      exact unmap_mapped_eq_false p
  · injection h with h1
    injection h1 with h2 h3
    subst h2
    exact unmap_mapped_eq_false p

lemma reinit_state_mapped_eq_false (p : priv) (params : mp_image_params) (e : ReinitEnv)
    (q : priv) (h : rresState (reinit p params e) = some q) : q.mapped = false := by
  simp only [reinit] at h
  rcases hdo : destroy_objects p with _ | ⟨p1, tr1⟩ <;> rw [hdo] at h <;> dsimp only at h
  · simp only [rresState] at h
    exact Option.noConfusion h
  · have hp1 : p1.mapped = false := destroy_objects_mapped_eq_false p p1 tr1 hdo
    split at h
    · simp only [rresState] at h
      exact Option.noConfusion h
    · rcases hc : p1.ctx with _ | dev <;> rw [hc] at h <;> dsimp only at h
      · simp only [rresState] at h
        exact Option.noConfusion h
      · split at h
        · simp only [rresState, Option.some.injEq] at h
          subst h
          exact hp1
        · split at h
          · simp only [rresState, Option.some.injEq] at h
            subst h
            exact hp1
          · simp only [rresState, Option.some.injEq] at h
            subst h
            exact hp1

lemma map_frame_cont_ok (p0 : priv) (tr0 : List VCall) (e : MapEnv) (q : priv)
    (f : gl_hwdec_frame) (tr : List VCall) (h : map_frame_cont p0 tr0 e = MRes.ok q f tr) :
    f = okFrame e ∧ q.mapped = true ∧ q.vdpgl_video_surface = e.register_result ∧
    e.register_result ≠ 0 ∧
    List.Sublist (conv_pass_calls q 0) tr ∧ List.Sublist (conv_pass_calls q 1) tr := by
  simp only [map_frame_cont] at h
  split at h
  · exact MRes.noConfusion h
  · split at h
    · exact MRes.noConfusion h
    · rename_i hreg
      injection h with h1 h2 h3
      subst h1
      subst h2
      subst h3
      refine ⟨rfl, rfl, rfl, hreg, ?_, ?_⟩
      · exact (((List.Sublist.refl _).cons _).trans
          (List.sublist_append_right _ _)).trans (List.sublist_append_left _ _)
      · exact ((List.Sublist.refl _).cons _).trans (List.sublist_append_right _ _)

lemma map_frame_cont_inv (p0 : priv) (tr0 : List VCall) (e : MapEnv) (q : priv)
    (hm : p0.mapped = false) (h : mresState (map_frame_cont p0 tr0 e) = some q) :
    vdpau_inv q := by
  simp only [map_frame_cont] at h
  split at h
  · simp only [mresState, Option.some.injEq] at h
    subst h
    exact vdpau_inv_of_not_mapped _ hm
  · split at h
    · simp only [mresState, Option.some.injEq] at h
      subst h
      exact vdpau_inv_of_not_mapped _ hm
    · rename_i hreg
      simp only [mresState, Option.some.injEq] at h
      subst h
      intro _
      exact hreg

lemma map_frame_cases (p : priv) (e : MapEnv) :
    map_frame p e = MRes.undef ∨
    (∃ q tr, q.mapped = false ∧ map_frame p e = MRes.fail q tr) ∨
    (∃ p0 tr0, (p0 = p ∨ p0.mapped = false) ∧ map_frame p e = map_frame_cont p0 tr0 e) := by
  rcases hc : p.ctx with _ | dev
  · left
    simp [map_frame, hc]
  · rcases lt_or_ge e.preemption 1 with hpe | hpe
    · rcases lt_or_ge e.preemption 0 with hpe0 | hpe0
      · right; left
        exact ⟨mark_vdpau_objects_uninitialized p, [], rfl, by simp [map_frame, hc, hpe, hpe0]⟩
      · have hpe0' : ¬ e.preemption < 0 := not_lt.mpr hpe0
        rcases hr : reinit (mark_vdpau_objects_uninitialized p)
            (mark_vdpau_objects_uninitialized p).image_params e.reinitEnv with
          ⟨q1, pa1, tr1⟩ | ⟨q1, pa1, tr1⟩ | _
        · right; right
          refine ⟨{ q1 with image_params := pa1 }, tr1, Or.inr ?_, ?_⟩
          · exact reinit_state_mapped_eq_false _ _ _ q1 (by rw [hr]; rfl)
          · simp [map_frame, hc, hpe, hpe0', hr]
        · right; left
          refine ⟨{ q1 with image_params := pa1 }, tr1, ?_, ?_⟩
          · exact reinit_state_mapped_eq_false _ _ _ q1 (by rw [hr]; rfl)
          · simp [map_frame, hc, hpe, hpe0', hr]
        · left
          simp [map_frame, hc, hpe, hpe0', hr]
    · right; right
      refine ⟨p, [], Or.inl rfl, ?_⟩
      simp [map_frame, hc, not_lt.mpr hpe]

lemma mresFrame_map_frame (p : priv) (e : MapEnv) (f : gl_hwdec_frame)
    (h : mresFrame (map_frame p e) = some f) : f = okFrame e := by
  rcases map_frame_cases p e with hu | ⟨q, tr, _, hf⟩ | ⟨p0, tr0, _, hf⟩
  · rw [hu] at h
    simp only [mresFrame] at h
    exact Option.noConfusion h
  · rw [hf] at h
    simp only [mresFrame] at h
    exact Option.noConfusion h
  · rw [hf] at h
    rcases hC : map_frame_cont p0 tr0 e with ⟨q, f1, tr⟩ | ⟨q, tr⟩ | _ <;>
      rw [hC] at h <;> simp only [mresFrame, Option.some.injEq] at h
    · subst h
      exact (map_frame_cont_ok p0 tr0 e q f1 tr hC).1
    · exact Option.noConfusion h
    · exact Option.noConfusion h

lemma reinit_ok_inv (p : priv) (params : mp_image_params) (e : ReinitEnv) (q : priv)
    (pa : mp_image_params) (tr : List VCall) (h : reinit p params e = RRes.ok q pa tr) :
    pa = { params with imgfmt := IMGFMT_NV12 } ∧ q.target = GL_TEXTURE_RECTANGLE ∧
    q.mapped = false := by
  simp only [reinit] at h
  revert h
  rcases hdo : destroy_objects p with _ | ⟨p1, tr1⟩ <;> intro h <;> dsimp only at h
  · exact RRes.noConfusion h
  · split at h
    · exact RRes.noConfusion h
    · revert h
      rcases hc : p1.ctx with _ | dev <;> intro h <;> dsimp only at h
      · exact RRes.noConfusion h
      · split at h
        · exact RRes.noConfusion h
        · split at h
          · exact RRes.noConfusion h
          · injection h with h1 h2 h3
            subst h1
            subst h2
            exact ⟨rfl, rfl, destroy_objects_mapped_eq_false p p1 tr1 hdo⟩

/-- C2: a successful reinit, called with the driver's declared input format
IMGFMT_VDPAU, mutates the caller-visible imgfmt field of the frame
parameters to the fixed planar output format IMGFMT_NV12, whatever the
dimensions. -/
theorem c2_reinit_output_format (p : priv) (params : mp_image_params) (e : ReinitEnv)
    (hfmt : params.imgfmt = IMGFMT_VDPAU) (hok : rresIsOk (reinit p params e) = true) :
    rresParams (reinit p params e) = some { params with imgfmt := IMGFMT_NV12 } := by
  revert hok
  rcases hr : reinit p params e with ⟨q, pa, tr⟩ | ⟨q, pa, tr⟩ | _ <;> intro hok
  · simp only [rresParams, Option.some.injEq]
    exact (reinit_ok_inv p params e q pa tr hr).1
  · simp [rresIsOk] at hok
  · simp [rresIsOk] at hok

/-- Instance of the C2 theorem on a configured 1920 by 1080 session. -/
theorem c2_reinit_output_format_inst :
    rresIsOk (reinit goodPriv goodParams goodReinitEnv) = true ∧
    rresParams (reinit goodPriv goodParams goodReinitEnv) =
      some { goodParams with imgfmt := IMGFMT_NV12 } :=
  ⟨by decide, c2_reinit_output_format goodPriv goodParams goodReinitEnv (by decide) (by decide)⟩

/-- C1: a successful map_frame on a surface whose queried dimensions are s_w
by s_h returns plane 0 at exactly s_w by s_h and plane 1 at s_w / 2 by
s_h / 2 (integer division rounding down, equal to the shift in the code),
here stated under the even-dimension hypothesis of the claim. -/
theorem c1_map_frame_plane_dims (p : priv) (e : MapEnv) (f : gl_hwdec_frame)
    (hok : mresFrame (map_frame p e) = some f) (hw : 2 ∣ e.s_w) (hh : 2 ∣ e.s_h) :
    f.plane0.tex_w = e.s_w ∧ f.plane0.tex_h = e.s_h ∧
    f.plane1.tex_w = e.s_w / 2 ∧ f.plane1.tex_h = e.s_h / 2 := by
  have hf := mresFrame_map_frame p e f hok
  subst hf
  refine ⟨?_, ?_, ?_, ?_⟩ <;> simp [okFrame, Nat.shiftRight_eq_div_pow]

/-- Instance of the C1 theorem for a 1920 by 1080 surface: planes 1920 by
1080 and 960 by 540. -/
theorem c1_map_frame_plane_dims_inst :
    mresFrame (map_frame goodPriv goodMapEnv) = some mappedFrame ∧
    (mappedFrame.plane0.tex_w = goodMapEnv.s_w ∧ mappedFrame.plane0.tex_h = goodMapEnv.s_h ∧
     mappedFrame.plane1.tex_w = goodMapEnv.s_w / 2 ∧
     mappedFrame.plane1.tex_h = goodMapEnv.s_h / 2) :=
  ⟨by decide,
   c1_map_frame_plane_dims goodPriv goodMapEnv mappedFrame (by decide) (by decide) (by decide)⟩

/-- C10: every successful map_frame returns both planes with sampling target
GL_TEXTURE_2D and an interlaced flag of false, while a successful reinit
sets the session's own input sampling target (used for the four interop
textures) to GL_TEXTURE_RECTANGLE. -/
theorem c10_output_target :
    (∀ p e f, mresFrame (map_frame p e) = some f →
      f.plane0.gl_target = GL_TEXTURE_2D ∧ f.plane1.gl_target = GL_TEXTURE_2D ∧
      f.interlaced = false) ∧
    (∀ p params e q, rresOkState (reinit p params e) = some q →
      q.target = GL_TEXTURE_RECTANGLE) := by
  constructor
  · intro p e f h
    have hf := mresFrame_map_frame p e f h
    subst hf
    exact ⟨rfl, rfl, rfl⟩
  · intro p params e q h
    simp only [reinit] at h
    rcases hdo : destroy_objects p with _ | ⟨p1, tr1⟩ <;> rw [hdo] at h <;> dsimp only at h
    · simp only [rresOkState] at h
      exact Option.noConfusion h
    · split at h
      · simp only [rresOkState] at h
        exact Option.noConfusion h
      · rcases hc : p1.ctx with _ | dev <;> rw [hc] at h <;> dsimp only at h
        · simp only [rresOkState] at h
          exact Option.noConfusion h
        · split at h
          · simp only [rresOkState] at h
            exact Option.noConfusion h
          · split at h
            · simp only [rresOkState] at h
              exact Option.noConfusion h
            · simp only [rresOkState, Option.some.injEq] at h
              subst h
              rfl

/-- Instance of the C10 theorem on the 1920 by 1080 session. -/
theorem c10_output_target_inst :
    (mappedFrame.plane0.gl_target = GL_TEXTURE_2D ∧
     mappedFrame.plane1.gl_target = GL_TEXTURE_2D ∧ mappedFrame.interlaced = false) ∧
    reinitGoodPriv.target = GL_TEXTURE_RECTANGLE :=
  ⟨c10_output_target.1 goodPriv goodMapEnv mappedFrame (by decide),
   c10_output_target.2 goodPriv goodParams goodReinitEnv reinitGoodPriv (by decide)⟩

lemma fractGL_natCast_add (m : Nat) (x : ℚ) : fractGL ((m : ℚ) + x) = fractGL x := by
  unfold fractGL
  rw [add_comm ((m : ℚ)) x, Int.floor_add_nat x m]
  push_cast
  ring

lemma shader_parity (r : Nat) : shader_selects_t0 (glFragCoordY r) = decide (r % 2 = 0) := by
  rcases Nat.even_or_odd r with ⟨m, hm⟩ | ⟨m, hm⟩
  · subst hm
    have h1 : glFragCoordY (m + m) / 2 = (m : ℚ) + 1/4 := by
      unfold glFragCoordY
      push_cast
      ring
    have h2 : fractGL ((1 : ℚ)/4) = 1/4 := by
      unfold fractGL
      norm_num
    have h3 : (m + m) % 2 = 0 := by omega
    simp only [shader_selects_t0, h1, fractGL_natCast_add, h2, h3]
    norm_num
  · subst hm
    have h1 : glFragCoordY (2 * m + 1) / 2 = (m : ℚ) + 3/4 := by
      unfold glFragCoordY
      push_cast
      ring
    have h2 : fractGL ((3 : ℚ)/4) = 3/4 := by
      unfold fractGL
      norm_num
    have h3 : ¬ (2 * m + 1) % 2 = 0 := by omega
    simp only [shader_selects_t0, h1, fractGL_natCast_add, h2, h3]
    norm_num

/-- C8: in every successful map_frame, each of the two conversion passes
binds sampler t0 on texture unit 0 to input texture 2*plane and sampler t1
on unit 1 to input texture 2*plane+1 (and those passes occur in the emitted
call trace), and the generated fragment shader selects t0 exactly on
even output rows and t1 on odd rows (parity of the gl_FragCoord.y row). -/
theorem c8_row_parity :
    (∀ p e q f tr, map_frame p e = MRes.ok q f tr → ∀ plane, plane < 2 →
      conv_pass_calls q plane =
        [VCall.uniformSampler "t0" 0,
         VCall.bindTexture 0 q.target (q.gl_textures.getD (plane * 2) 0),
         VCall.uniformSampler "t1" 1,
         VCall.bindTexture 1 q.target (q.gl_textures.getD (plane * 2 + 1) 0),
         VCall.drawPass plane] ∧
      List.Sublist (conv_pass_calls q plane) tr) ∧
    (∀ r : Nat, shader_selects_t0 (glFragCoordY r) = decide (r % 2 = 0)) := by
  constructor
  · intro p e q f tr h plane hpl
    have hsub : List.Sublist (conv_pass_calls q 0) tr ∧
        List.Sublist (conv_pass_calls q 1) tr := by
      rcases map_frame_cases p e with hu | ⟨q1, tr1, _, hf⟩ | ⟨p0, tr0, _, hf⟩
      · rw [h] at hu
        exact MRes.noConfusion hu
      · rw [h] at hf
        exact MRes.noConfusion hf
      · rw [h] at hf
        have hc := map_frame_cont_ok p0 tr0 e q f tr hf.symm
        exact ⟨hc.2.2.2.2.1, hc.2.2.2.2.2⟩
    have hpl2 : plane = 0 ∨ plane = 1 := by omega
    rcases hpl2 with rfl | rfl
    · exact ⟨rfl, hsub.1⟩
    · exact ⟨rfl, hsub.2⟩
  · exact shader_parity

/-- Instance of the C8 theorem: the plane 0 pass of the 1920 by 1080
map_frame binds textures 11 and 12 to units 0 and 1, and row 2 samples
from t0. -/
theorem c8_row_parity_inst :
    (conv_pass_calls mappedGoodPriv 0 =
       [VCall.uniformSampler "t0" 0, VCall.bindTexture 0 34037 11,
        VCall.uniformSampler "t1" 1, VCall.bindTexture 1 34037 12, VCall.drawPass 0] ∧
     List.Sublist (conv_pass_calls mappedGoodPriv 0) mappedTrace) ∧
    shader_selects_t0 (glFragCoordY 2) = decide (2 % 2 = 0) :=
  ⟨c8_row_parity.1 goodPriv goodMapEnv mappedGoodPriv mappedFrame mappedTrace
     (by decide) 0 (by decide),
   c8_row_parity.2 2⟩

/-- C5 counterexample: a mapped session with binding 7 satisfies the
invariant, yet map_frame on it, with the GPU rejecting the surface
registration, leaves a state that is still mapped with a zero binding,
violating the invariant.  So the invariant is not preserved by map_frame on
already-mapped sessions. -/
theorem c5_invariant_cex :
    vdpau_inv c5cexPriv ∧
    mresState (map_frame c5cexPriv c5cexEnv) = some c5cexAfter ∧
    ¬ vdpau_inv c5cexAfter := by
  decide

/-- C5 amended: the invariant that mapped implies a nonzero video-surface
binding holds in the zero-initialized state and is preserved by unmap, by
mark_vdpau_objects_uninitialized, by destroy_objects, by reinit, by create,
and by map_frame when map_frame is invoked on a session that is not
currently mapped (the lifecycle contract); an already-mapped session whose
registration fails is the sole violation, shown in the counterexample. -/
theorem c5_invariant_preserved :
    vdpau_inv priv0 ∧
    (∀ p, vdpau_inv (unmap p).1) ∧
    (∀ p, vdpau_inv (mark_vdpau_objects_uninitialized p)) ∧
    (∀ p q tr, destroy_objects p = some (q, tr) → vdpau_inv q) ∧
    (∀ p params e q, rresState (reinit p params e) = some q → vdpau_inv q) ∧
    (∀ e r q, create e = some (r, some q) → vdpau_inv q) ∧
    (∀ p e q, p.mapped = false → mresState (map_frame p e) = some q → vdpau_inv q) := by
  refine ⟨by decide, ?_, ?_, ?_, ?_, ?_, ?_⟩
  · intro p
    exact vdpau_inv_of_not_mapped _ (unmap_mapped_eq_false p)
  · intro p
    exact vdpau_inv_of_not_mapped _ rfl
  · intro p q tr h
    exact vdpau_inv_of_not_mapped _ (destroy_objects_mapped_eq_false p q tr h)
  · intro p params e q h
    exact vdpau_inv_of_not_mapped _ (reinit_state_mapped_eq_false p params e q h)
  · intro e r q h
    revert h
    simp only [create]
    split
    · intro h
      simp at h
    · split
      · intro h
        simp at h
      · split
        · intro h
          simp at h
          rcases h with ⟨h1, h2⟩
          subst h2
          decide
        · split
          · intro h
            simp at h
            rcases h with ⟨h1, h2⟩
            subst h2
            exact vdpau_inv_of_not_mapped _ rfl
          · split
            · intro h
              rw [Option.map_eq_some'] at h
              rcases h with ⟨a, ha, hf⟩
              simp at hf
            · intro h
              simp at h
              rcases h with ⟨h1, h2⟩
              subst h2
              exact vdpau_inv_of_not_mapped _ rfl
  · intro p e q hm h
    rcases map_frame_cases p e with hu | ⟨q1, tr1, hq1, hf⟩ | ⟨p0, tr0, hp0, hf⟩
    · rw [hu] at h
      simp only [mresState] at h
      exact Option.noConfusion h
    · rw [hf] at h
      simp only [mresState, Option.some.injEq] at h
      subst h
      exact vdpau_inv_of_not_mapped _ hq1
    · rw [hf] at h
      rcases hp0 with rfl | hp0m
      · exact map_frame_cont_inv _ tr0 e q hm h
      · exact map_frame_cont_inv _ tr0 e q hp0m h

/-- Instance of the amended C5 theorem: the invariant holds after a
successful map_frame on the unmapped 1920 by 1080 session and after a
successful create. -/
theorem c5_invariant_preserved_inst :
    vdpau_inv mappedGoodPriv ∧ vdpau_inv createdPriv :=
  ⟨c5_invariant_preserved.2.2.2.2.2.2 goodPriv goodMapEnv mappedGoodPriv
     (by decide) (by decide),
   c5_invariant_preserved.2.2.2.2.2.1 goodCreateEnv (-1 + 1) createdPriv (by decide)⟩

/-- C3: on a session with a live device context, a negative preemption query
makes map_frame mark the interop objects invalid (invalid output-surface
sentinel, mapped cleared) and return the failure with an empty call trace,
so no registration is attempted; a zero (recoverable) result makes it mark
the objects and run reinit on the stored frame parameters, after which it
fails exactly when that reinit fails and otherwise proceeds to the
registration continuation. -/
theorem c3_map_frame_preemption (p : priv) (e : MapEnv) (dev : Nat)
    (hctx : p.ctx = some dev) :
    (e.preemption < 0 →
      map_frame p e = MRes.fail (mark_vdpau_objects_uninitialized p) []) ∧
    (e.preemption = 0 → ∀ q pa tr,
      reinit (mark_vdpau_objects_uninitialized p)
        (mark_vdpau_objects_uninitialized p).image_params e.reinitEnv = RRes.fail q pa tr →
      map_frame p e = MRes.fail { q with image_params := pa } tr) ∧
    (e.preemption = 0 → ∀ q pa tr,
      reinit (mark_vdpau_objects_uninitialized p)
        (mark_vdpau_objects_uninitialized p).image_params e.reinitEnv = RRes.ok q pa tr →
      map_frame p e = map_frame_cont { q with image_params := pa } tr e) := by
  refine ⟨?_, ?_, ?_⟩
  · intro hpe
    have hpe1 : e.preemption < 1 := by omega
    simp [map_frame, hctx, hpe, hpe1]
  · intro hpe q pa tr hr
    have hpe1 : e.preemption < 1 := by omega
    have hpe0 : ¬ e.preemption < 0 := by omega
    simp [map_frame, hctx, hpe1, hpe0, hr]
  · intro hpe q pa tr hr
    have hpe1 : e.preemption < 1 := by omega
    have hpe0 : ¬ e.preemption < 0 := by omega
    simp [map_frame, hctx, hpe1, hpe0, hr]

/-- Instance of the C3 theorem: the 1920 by 1080 session fails immediately
on a fatal preemption, and on a recoverable preemption proceeds to the
registration continuation in the freshly reinitialized state. -/
theorem c3_map_frame_preemption_inst :
    map_frame goodPriv { goodMapEnv with preemption := -1 }
      = MRes.fail (mark_vdpau_objects_uninitialized goodPriv) [] ∧
    map_frame goodPriv { goodMapEnv with preemption := 0 }
      = map_frame_cont
          { reinitGoodPriv with image_params := { goodParams with imgfmt := IMGFMT_NV12 } }
          reinitMarkedTrace { goodMapEnv with preemption := 0 } :=
  ⟨(c3_map_frame_preemption goodPriv { goodMapEnv with preemption := -1 } 1 rfl).1
     (by decide),
   (c3_map_frame_preemption goodPriv { goodMapEnv with preemption := 0 } 1 rfl).2.2
     rfl reinitGoodPriv { goodParams with imgfmt := IMGFMT_NV12 } reinitMarkedTrace
     (by decide)⟩

/-- C7 counterexample: when create fails at device-context creation, the
session it leaves behind is the zero-initialized priv, whose output-surface
field is 0 rather than the invalid sentinel; destroy on that session
dereferences the null device context in the surface-destroy step (modelled
as the none result), so destroy directly after this partial create failure
is not safe. -/
theorem c7_destroy_after_create_cex :
    create c7cexEnv = some (-1, some priv0) ∧ destroy (some priv0) = none := by
  decide

lemma destroy_of_clean (p : priv) (hdev : p.ctx.isSome = true) (hmap : p.mapped = false)
    (hsurf : p.vdpgl_surface = 0) (hvdp : p.vdp_surface = VDP_INVALID_HANDLE)
    (hinit : p.vdpgl_initialized = false) :
    destroy (some p) = some [VCall.deleteTextures p.gl_textures, VCall.mixerDestroy,
                             VCall.devicesRemove, VCall.vdpauDestroy] := by
  have hu : unmap p = (p, []) := unmap_of_not_mapped p hmap
  simp only [destroy, destroy_objects, hu]
  simp [hsurf, hvdp, hinit, hdev]

/-- C7 amended: destroy is safe at the failure points at or after the
invalid-handle sentinel is installed: after a fully successful create,
destroy runs without crashing and releases nothing it does not own (its
trace holds no output-surface destroy and no unregister), and create itself
never crashes, in particular the internal destroy on the probing-emulation
rejection path is safe.  At the earlier failure points (no display, no
interop capability, context-creation failure, preemption failure) the
sentinel is not yet installed and the claim fails, as the counterexample
shows. -/
theorem c7_destroy_safe :
    (∀ e r q, create e = some (r, some q) → r = 0 →
      destroy (some q) = some [VCall.deleteTextures [0, 0, 0, 0], VCall.mixerDestroy,
                               VCall.devicesRemove, VCall.vdpauDestroy]) ∧
    (∀ e, (create e).isSome = true) := by
  constructor
  · intro e r q h hr
    subst hr
    revert h
    simp only [create]
    split
    · intro h
      simp at h
    · split
      · intro h
        simp at h
      · split
        · intro h
          simp at h
        · split
          · intro h
            simp at h
          · split
            · intro h
              rw [Option.map_eq_some'] at h
              rcases h with ⟨a, ha, hf⟩
              simp at hf
            · intro h
              simp at h
              subst h
              apply destroy_of_clean
              · rfl
              · rfl
              · rfl
              · rfl
              · rfl
  · intro e
    simp only [create]
    split
    · rfl
    · split
      · rfl
      · split
        · rfl
        · split
          · rfl
          · split
            · rw [destroy_of_clean]
              · rfl
              · rfl
              · rfl
              · rfl
              · rfl
              · rfl
            · rfl

/-- Instance of the amended C7 theorem: destroy after the successful create
is safe and releases only owned resources, and the probing-path create
returns. -/
theorem c7_destroy_safe_inst :
    destroy (some createdPriv) = some [VCall.deleteTextures [0, 0, 0, 0], VCall.mixerDestroy,
                                       VCall.devicesRemove, VCall.vdpauDestroy] ∧
    (create goodCreateEnv).isSome = true :=
  ⟨c7_destroy_safe.1 goodCreateEnv 0 createdPriv (by decide) rfl,
   c7_destroy_safe.2 goodCreateEnv⟩
